import Mathlib

/-
Shallow embedding of `homeassistant/components/ecobee/__init__.py`.

The module wraps an opaque external vendor client (the `Ecobee` object from
the pyecobee library).  The client is modelled by its observable surface:
its credential configuration (the values stored under the keys
ECOBEE_API_KEY and ECOBEE_REFRESH_TOKEN), its `thermostats` attribute, and
the two calls the module makes into it:
  - the data fetch `ecobee.update` (run through the executor), which either
    completes with a new client state, raises the distinguished
    ExpiredTokenError, or raises some other exception;
  - the token refresh `ecobee.refresh_tokens` (run through the executor),
    which either returns a truth value together with the client state after
    the call, or raises an exception.  The expired-credential error is the
    distinguished exception kind of the data-fetch call, so a raising
    refresh call carries an opaque message.
A call that raises is modelled as leaving the client state unchanged.
The behaviours of the two calls are passed in as function parameters, so
theorems quantify over every behaviour of the external collaborator.

Exceptions are modelled with Except / an `exc` field; `Except.error`
corresponds to an exception propagating out of the Python function.
The hosting platform (hass) is modelled by the slots this module touches:
hass.data[DOMAIN], hass.data[DATA_ECOBEE_CONFIG], the list returned by
hass.config_entries.async_entries(DOMAIN), and a counter of tasks created
with hass.async_create_task.
-/

/-- Durable config entry record: its data dict holds the two keys
CONF_API_KEY and CONF_REFRESH_TOKEN. -/
structure Entry where
  api_key : String
  refresh_token : String
  deriving DecidableEq

/-- Observable state of the opaque external client: its credential config
and its `thermostats` attribute (`none` models Python None, the value the
attribute holds before any successful fetch). -/
structure Ecobee where
  api_key : String
  refresh_token : String
  thermostats : Option (List String)
  deriving DecidableEq

/-- Outcome of one external data-fetch call (`ecobee.update`). -/
inductive FetchOutcome where
  | ok (e : Ecobee)
  | expired
  | err (msg : String)
  deriving DecidableEq

/-- Outcome of one external token-refresh call (`ecobee.refresh_tokens`):
it returns a truth value (with the client state after the call), or it
raises. -/
inductive RefreshOutcome where
  | returns (success : Bool) (e : Ecobee)
  | raises (msg : String)
  deriving DecidableEq

/-- Exception kinds escaping `update`: the distinguished ExpiredTokenError,
or any other exception with an opaque message. -/
inductive PyExc where
  | expiredToken
  | other (msg : String)
  deriving DecidableEq

/-- Python: `Ecobee(config={ECOBEE_API_KEY: api_key, ECOBEE_REFRESH_TOKEN:
refresh_token})` — a fresh client with no fetched device list. -/
def Ecobee.init (api_key refresh_token : String) : Ecobee :=
  { api_key := api_key, refresh_token := refresh_token, thermostats := none }

/-- Coordinator state: the owned client handle plus the throttle wrapper's
last-successful-call timestamp (seconds). -/
structure EcobeeData where
  ecobee : Ecobee
  lastUpdate : Option Nat
  deriving DecidableEq

/-- Python: `EcobeeData.__init__` — constructs the client from the stored
credential pair; the throttle wrapper starts with no recorded call. -/
def EcobeeData.init (api_key refresh_token : String) : EcobeeData :=
  { ecobee := Ecobee.init api_key refresh_token, lastUpdate := none }

/-- Python: `MIN_TIME_BETWEEN_UPDATES = timedelta(seconds=180)`. -/
def MIN_TIME_BETWEEN_UPDATES : Nat := 180

/-- Modelled from the spec: the `Throttle` wrapper from homeassistant.util
is not part of the sources; per the spec it keeps a last-successful-call
timestamp and lets the wrapped call execute at most once per fixed interval
(180 seconds) — invoked again sooner, it is a silent no-op. -/
def throttleAllows (lastCall : Option Nat) (now : Nat) : Bool :=
  match lastCall with
  | none => true
  | some t => MIN_TIME_BETWEEN_UPDATES ≤ now - t

/-- Result of one run of `EcobeeData.refresh`: the value returned (or the
exception raised), the coordinator state, and the durable entry record
afterwards. -/
structure RefreshRes where
  ret : Except String Bool
  d : EcobeeData
  entry : Entry

/-- Python: `EcobeeData.refresh` — calls the external token refresh; on a
truthy result, rewrites the entry data with the client's current credential
pair (via hass.config_entries.async_update_entry) and returns True; on a
falsy result, logs and returns False.  It installs no exception handler, so
an exception from the external call propagates. -/
def EcobeeData.refresh (refresh_tokens : Ecobee → RefreshOutcome)
    (d : EcobeeData) (entry : Entry) : RefreshRes :=
  match refresh_tokens d.ecobee with
  | .raises msg => { ret := .error msg, d := d, entry := entry }
  | .returns true e =>
      { ret := .ok true, d := { d with ecobee := e },
        entry := { api_key := e.api_key, refresh_token := e.refresh_token } }
  | .returns false e =>
      { ret := .ok false, d := { d with ecobee := e }, entry := entry }

/-- Result of one call to `EcobeeData.update`: the exception escaping it
(none when it returns normally, which includes the throttled no-op), the
coordinator state and entry afterwards, and how many underlying external
data-fetch calls and `refresh` invocations happened. -/
structure UpdateRes where
  exc : Option PyExc
  d : EcobeeData
  entry : Entry
  fetchCalls : Nat
  refreshCalls : Nat

/-- Python: the body of `EcobeeData.update` (inside the throttle wrapper) —
runs the external data fetch; catches exactly ExpiredTokenError and then
invokes `refresh`; any other exception, and any exception raised by the
nested `refresh`, propagates. -/
def EcobeeData.updateBody (ecobee_update : Ecobee → FetchOutcome)
    (refresh_tokens : Ecobee → RefreshOutcome)
    (d : EcobeeData) (entry : Entry) : UpdateRes :=
  match ecobee_update d.ecobee with
  | .ok e =>
      { exc := none, d := { d with ecobee := e }, entry := entry,
        fetchCalls := 1, refreshCalls := 0 }
  | .err msg =>
      { exc := some (.other msg), d := d, entry := entry,
        fetchCalls := 1, refreshCalls := 0 }
  | .expired =>
      let r := EcobeeData.refresh refresh_tokens d entry
      match r.ret with
      | .error msg =>
          { exc := some (.other msg), d := r.d, entry := r.entry,
            fetchCalls := 1, refreshCalls := 1 }
      | .ok _ =>
          { exc := none, d := r.d, entry := r.entry,
            fetchCalls := 1, refreshCalls := 1 }

/-- Python: `EcobeeData.update`, i.e. the body wrapped in
`@Throttle(MIN_TIME_BETWEEN_UPDATES)`: if the gate blocks, the call is a
silent no-op; otherwise the body runs and, when it completes without an
exception, the wrapper records the call time. -/
def EcobeeData.update (ecobee_update : Ecobee → FetchOutcome)
    (refresh_tokens : Ecobee → RefreshOutcome) (now : Nat)
    (d : EcobeeData) (entry : Entry) : UpdateRes :=
  if throttleAllows d.lastUpdate now then
    let r := EcobeeData.updateBody ecobee_update refresh_tokens d entry
    match r.exc with
    | none => { r with d := { r.d with lastUpdate := some now } }
    | some _ => r
  else
    { exc := none, d := d, entry := entry, fetchCalls := 0, refreshCalls := 0 }

/-- Slots of the hosting platform state this module touches. -/
structure Hass where
  dataDomain : Option EcobeeData
  dataEcobeeConfig : Option (List (String × String))
  entries : List Entry
  tasks : Nat
  deriving DecidableEq

/-- Python: `async_setup(hass, config)` — stores config.get(DOMAIN, {})
under DATA_ECOBEE_CONFIG; if no config entry exists for the domain and the
stored block is truthy (a non-empty dict), creates the one-shot import-flow
task; always returns True.  `config` is `none` when the YAML has no block
for the domain. -/
def async_setup (hass : Hass) (config : Option (List (String × String))) :
    Hass × Bool :=
  let block := config.getD []
  let h1 := { hass with dataEcobeeConfig := some block }
  if h1.entries.isEmpty && !block.isEmpty then
    ({ h1 with tasks := h1.tasks + 1 }, true)
  else
    (h1, true)

/-- Result of one run of `async_setup_entry`: the value returned (or the
exception raised), the hass state and entry afterwards, and the platforms a
forward-setup task was created for. -/
structure SetupRes where
  ret : Except PyExc Bool
  hass : Hass
  entry : Entry
  forwarded : List String

/-- Python: `async_setup_entry(hass, entry)` — builds the coordinator from
the entry's credential pair, performs a mandatory refresh (returning False
on a falsy result), then one update; returns False if the client's
`thermostats` attribute is None; otherwise registers the coordinator under
hass.data[DOMAIN], creates a forward-setup task per platform in
ECOBEE_PLATFORMS (passed as a parameter, the list lives in const.py) and
returns True.  Exceptions from refresh or update propagate. -/
def async_setup_entry (ecobee_update : Ecobee → FetchOutcome)
    (refresh_tokens : Ecobee → RefreshOutcome) (now : Nat)
    (ECOBEE_PLATFORMS : List String) (hass : Hass) (entry : Entry) :
    SetupRes :=
  let data := EcobeeData.init entry.api_key entry.refresh_token
  let r := EcobeeData.refresh refresh_tokens data entry
  match r.ret with
  | .error msg =>
      { ret := .error (.other msg), hass := hass, entry := r.entry,
        forwarded := [] }
  | .ok false =>
      { ret := .ok false, hass := hass, entry := r.entry, forwarded := [] }
  | .ok true =>
      let u := EcobeeData.update ecobee_update refresh_tokens now r.d r.entry
      match u.exc with
      | some e =>
          { ret := .error e, hass := hass, entry := u.entry, forwarded := [] }
      | none =>
          if u.d.ecobee.thermostats = none then
            { ret := .ok false, hass := hass, entry := u.entry,
              forwarded := [] }
          else
            { ret := .ok true,
              hass := { hass with dataDomain := some u.d },
              entry := u.entry, forwarded := ECOBEE_PLATFORMS }

/-- Result of one run of `async_unload_entry`: the value returned (or the
exception raised), the hass state afterwards, and the platforms whose
forward-unload call was made. -/
structure UnloadRes where
  ret : Except String Bool
  hass : Hass
  called : List String

/-- Python: `async_unload_entry(hass, config_entry)` — pops
hass.data[DOMAIN] with no default (a missing key raises KeyError), then
gathers one forward-unload call per platform (asyncio.gather runs them
all) and returns the conjunction of their results. -/
def async_unload_entry (async_forward_entry_unload : Entry → String → Bool)
    (ECOBEE_PLATFORMS : List String) (hass : Hass) (config_entry : Entry) :
    UnloadRes :=
  match hass.dataDomain with
  | none => { ret := .error "KeyError: ecobee", hass := hass, called := [] }
  | some _ =>
      let h1 := { hass with dataDomain := none }
      let results :=
        ECOBEE_PLATFORMS.map (async_forward_entry_unload config_entry)
      { ret := .ok (results.all id), hass := h1, called := ECOBEE_PLATFORMS }

/-
Concrete external-client behaviours and states used by witnesses and
counterexamples.
-/

def rbK2 : Ecobee → RefreshOutcome :=
  fun _ => .returns true (Ecobee.init "K2" "R2")

def rbId : Ecobee → RefreshOutcome :=
  fun e => .returns true e

def rbFalse : Ecobee → RefreshOutcome :=
  fun e => .returns false e

def rbRaises : Ecobee → RefreshOutcome :=
  fun _ => .raises "ConnectionError"

def fbOk : Ecobee → FetchOutcome :=
  fun e => .ok { e with thermostats := some ["therm1"] }

def fbEmptyList : Ecobee → FetchOutcome :=
  fun e => .ok { e with thermostats := some [] }

def fbNone : Ecobee → FetchOutcome :=
  fun e => .ok e

def fbExpired : Ecobee → FetchOutcome :=
  fun _ => .expired

def fbErr : Ecobee → FetchOutcome :=
  fun _ => .err "HTTPError"

def hass0 : Hass :=
  { dataDomain := none, dataEcobeeConfig := none, entries := [], tasks := 0 }

def entry0 : Entry := { api_key := "K1", refresh_token := "R1" }

def d0 : EcobeeData := EcobeeData.init "K1" "R1"

/-- C1: if refresh returns success (true), the durable entry's stored
credential pair immediately afterwards equals the external client's current
credential pair. -/
theorem refresh_success_syncs_entry
    (refresh_tokens : Ecobee → RefreshOutcome) (d : EcobeeData) (entry : Entry)
    (h : (EcobeeData.refresh refresh_tokens d entry).ret = Except.ok true) :
    (EcobeeData.refresh refresh_tokens d entry).entry.api_key
      = (EcobeeData.refresh refresh_tokens d entry).d.ecobee.api_key
    ∧ (EcobeeData.refresh refresh_tokens d entry).entry.refresh_token
      = (EcobeeData.refresh refresh_tokens d entry).d.ecobee.refresh_token := by
  unfold EcobeeData.refresh at h ⊢
  cases hrb : refresh_tokens d.ecobee with
  | returns b e => cases b <;> simp [hrb] at h ⊢
  | raises msg => simp [hrb] at h

/-- C1 witness: the spec scenario — entry {K1, R1}, the external refresh
installs {K2, R2} and succeeds; after refresh the entry holds the client's
pair. -/
theorem refresh_success_syncs_entry_witness :
    (EcobeeData.refresh rbK2 d0 entry0).ret = Except.ok true
    ∧ ((EcobeeData.refresh rbK2 d0 entry0).entry.api_key
        = (EcobeeData.refresh rbK2 d0 entry0).d.ecobee.api_key
      ∧ (EcobeeData.refresh rbK2 d0 entry0).entry.refresh_token
        = (EcobeeData.refresh rbK2 d0 entry0).d.ecobee.refresh_token) :=
  ⟨rfl, refresh_success_syncs_entry rbK2 d0 entry0 rfl⟩

/-- C9: if refresh returns failure (false) the durable entry is left
unchanged, and likewise when the external call raises — the entry record is
rewritten only on the success path. -/
theorem refresh_failure_preserves_entry
    (refresh_tokens : Ecobee → RefreshOutcome) (d : EcobeeData) (entry : Entry) :
    ((EcobeeData.refresh refresh_tokens d entry).ret = Except.ok false →
      (EcobeeData.refresh refresh_tokens d entry).entry = entry)
    ∧ (∀ msg,
      (EcobeeData.refresh refresh_tokens d entry).ret = Except.error msg →
      (EcobeeData.refresh refresh_tokens d entry).entry = entry) := by
  unfold EcobeeData.refresh
  cases hrb : refresh_tokens d.ecobee with
  | returns b e => cases b <;> simp
  | raises msg => simp

/-- C9 witness: a failing external refresh leaves the entry untouched. -/
theorem refresh_failure_preserves_entry_witness :
    (EcobeeData.refresh rbFalse d0 entry0).ret = Except.ok false
    ∧ (EcobeeData.refresh rbFalse d0 entry0).entry = entry0 :=
  ⟨rfl, (refresh_failure_preserves_entry rbFalse d0 entry0).1 rfl⟩

/-- C8 counterexample: refresh installs no exception handler, so when the
external token-refresh call itself raises, the exception propagates out of
refresh — refuting "for every outcome of the external call (including the
call itself failing), refresh() never raises". -/
theorem refresh_never_raises_cex :
    (EcobeeData.refresh rbRaises d0 entry0).ret
      = Except.error "ConnectionError" :=
  rfl

/-- C8 (amended): whenever the external token-refresh call returns a
boolean (rather than raising), refresh never raises and communicates
exactly that boolean — false for failure, true for success. -/
theorem refresh_returns_external_bool
    (refresh_tokens : Ecobee → RefreshOutcome) (d : EcobeeData) (entry : Entry)
    (b : Bool) (e : Ecobee)
    (h : refresh_tokens d.ecobee = RefreshOutcome.returns b e) :
    (EcobeeData.refresh refresh_tokens d entry).ret = Except.ok b := by
  unfold EcobeeData.refresh
  cases b <;> simp [h]

/-- C8 witness: a failing (falsy) external call is surfaced as the boolean
false, not an exception. -/
theorem refresh_returns_external_bool_witness :
    rbFalse d0.ecobee = RefreshOutcome.returns false d0.ecobee
    ∧ (EcobeeData.refresh rbFalse d0 entry0).ret = Except.ok false :=
  ⟨rfl, refresh_returns_external_bool rbFalse d0 entry0 false d0.ecobee rfl⟩

/-- Helper: whenever the throttle gate admits the call, the body performs
exactly one underlying external data-fetch call, whatever its outcome. -/
theorem updateBody_fetchCalls
    (ecobee_update : Ecobee → FetchOutcome)
    (refresh_tokens : Ecobee → RefreshOutcome)
    (d : EcobeeData) (entry : Entry) :
    (EcobeeData.updateBody ecobee_update refresh_tokens d entry).fetchCalls
      = 1 := by
  unfold EcobeeData.updateBody
  cases ecobee_update d.ecobee with
  | ok e => rfl
  | err msg => rfl
  | expired =>
    cases hret : (EcobeeData.refresh refresh_tokens d entry).ret <;>
      simp [hret]

/-- Helper: a gate-admitted call that returns normally records its call
time in the throttle state and made exactly one fetch call. -/
theorem update_normal_run
    (ecobee_update : Ecobee → FetchOutcome)
    (refresh_tokens : Ecobee → RefreshOutcome)
    (now : Nat) (d : EcobeeData) (entry : Entry)
    (hgate : throttleAllows d.lastUpdate now = true)
    (hok : (EcobeeData.update ecobee_update refresh_tokens now d entry).exc
      = none) :
    (EcobeeData.update ecobee_update refresh_tokens now d entry).d.lastUpdate
      = some now
    ∧ (EcobeeData.update ecobee_update refresh_tokens now d entry).fetchCalls
      = 1 := by
  unfold EcobeeData.update at hok ⊢
  rw [hgate] at hok ⊢
  simp only [if_true] at hok ⊢
  cases hexc :
      (EcobeeData.updateBody ecobee_update refresh_tokens d entry).exc with
  | none => simp [hexc, updateBody_fetchCalls]
  | some e => rw [hexc] at hok; simp [hexc] at hok

/-- Helper: when the throttle gate blocks, the call is a silent no-op — no
fetch, no exception, no state change. -/
theorem update_noop
    (ecobee_update : Ecobee → FetchOutcome)
    (refresh_tokens : Ecobee → RefreshOutcome)
    (now : Nat) (d : EcobeeData) (entry : Entry)
    (hgate : throttleAllows d.lastUpdate now = false) :
    EcobeeData.update ecobee_update refresh_tokens now d entry
      = { exc := none, d := d, entry := entry, fetchCalls := 0,
          refreshCalls := 0 } := by
  unfold EcobeeData.update
  rw [hgate]
  simp

/-- C2: starting from a freshly constructed coordinator, two update calls
within the 180-second throttle interval make exactly one underlying
external data-fetch call — the first call fetches once, the second is a
silent no-op (no exception, no fetch, no state change). -/
theorem update_twice_within_interval
    (ecobee_update : Ecobee → FetchOutcome)
    (refresh_tokens : Ecobee → RefreshOutcome)
    (t1 t2 : Nat) (d : EcobeeData) (entry : Entry)
    (hfresh : d.lastUpdate = none)
    (hwin : t2 - t1 < MIN_TIME_BETWEEN_UPDATES)
    (hok : (EcobeeData.update ecobee_update refresh_tokens t1 d entry).exc
      = none) :
    (EcobeeData.update ecobee_update refresh_tokens t1 d entry).fetchCalls = 1
    ∧ (EcobeeData.update ecobee_update refresh_tokens t2
        (EcobeeData.update ecobee_update refresh_tokens t1 d entry).d
        (EcobeeData.update ecobee_update refresh_tokens t1 d entry).entry
      ).fetchCalls = 0
    ∧ (EcobeeData.update ecobee_update refresh_tokens t2
        (EcobeeData.update ecobee_update refresh_tokens t1 d entry).d
        (EcobeeData.update ecobee_update refresh_tokens t1 d entry).entry
      ).exc = none
    ∧ (EcobeeData.update ecobee_update refresh_tokens t2
        (EcobeeData.update ecobee_update refresh_tokens t1 d entry).d
        (EcobeeData.update ecobee_update refresh_tokens t1 d entry).entry
      ).d = (EcobeeData.update ecobee_update refresh_tokens t1 d entry).d
    ∧ (EcobeeData.update ecobee_update refresh_tokens t2
        (EcobeeData.update ecobee_update refresh_tokens t1 d entry).d
        (EcobeeData.update ecobee_update refresh_tokens t1 d entry).entry
      ).entry
      = (EcobeeData.update ecobee_update refresh_tokens t1 d entry).entry := by
  have hgate1 : throttleAllows d.lastUpdate t1 = true := by
    rw [hfresh]; rfl
  have h1 := update_normal_run ecobee_update refresh_tokens t1 d entry
    hgate1 hok
  have hgate2 : throttleAllows
      (EcobeeData.update ecobee_update refresh_tokens t1 d entry).d.lastUpdate
      t2 = false := by
    rw [h1.1]
    unfold throttleAllows
    simp only [decide_eq_false_iff_not]
    omega
  have h2 := update_noop ecobee_update refresh_tokens t2
    (EcobeeData.update ecobee_update refresh_tokens t1 d entry).d
    (EcobeeData.update ecobee_update refresh_tokens t1 d entry).entry hgate2
  refine ⟨h1.2, ?_, ?_, ?_, ?_⟩ <;> rw [h2]

/-- C2 witness: a fresh coordinator, updates at t = 0 and t = 100. -/
theorem update_twice_within_interval_witness :
    (d0.lastUpdate = none
      ∧ 100 - 0 < MIN_TIME_BETWEEN_UPDATES
      ∧ (EcobeeData.update fbOk rbId 0 d0 entry0).exc = none)
    ∧ ((EcobeeData.update fbOk rbId 0 d0 entry0).fetchCalls = 1
      ∧ (EcobeeData.update fbOk rbId 100
          (EcobeeData.update fbOk rbId 0 d0 entry0).d
          (EcobeeData.update fbOk rbId 0 d0 entry0).entry).fetchCalls = 0
      ∧ (EcobeeData.update fbOk rbId 100
          (EcobeeData.update fbOk rbId 0 d0 entry0).d
          (EcobeeData.update fbOk rbId 0 d0 entry0).entry).exc = none
      ∧ (EcobeeData.update fbOk rbId 100
          (EcobeeData.update fbOk rbId 0 d0 entry0).d
          (EcobeeData.update fbOk rbId 0 d0 entry0).entry).d
        = (EcobeeData.update fbOk rbId 0 d0 entry0).d
      ∧ (EcobeeData.update fbOk rbId 100
          (EcobeeData.update fbOk rbId 0 d0 entry0).d
          (EcobeeData.update fbOk rbId 0 d0 entry0).entry).entry
        = (EcobeeData.update fbOk rbId 0 d0 entry0).entry) :=
  ⟨⟨rfl, by decide, rfl⟩,
   update_twice_within_interval fbOk rbId 0 100 d0 entry0 rfl (by decide) rfl⟩

/-- C3: when the gate admits the call and the external data fetch raises
the expired-credential error, update invokes refresh exactly once and does
not let ExpiredTokenError escape to its caller; any other failure of the
fetch is not caught — it propagates as raised, with refresh never
invoked. -/
theorem update_expired_refreshes_once
    (ecobee_update : Ecobee → FetchOutcome)
    (refresh_tokens : Ecobee → RefreshOutcome)
    (now : Nat) (d : EcobeeData) (entry : Entry)
    (hgate : throttleAllows d.lastUpdate now = true) :
    (ecobee_update d.ecobee = FetchOutcome.expired →
      (EcobeeData.update ecobee_update refresh_tokens now d entry).refreshCalls
        = 1
      ∧ (EcobeeData.update ecobee_update refresh_tokens now d entry).exc
        ≠ some PyExc.expiredToken)
    ∧ (∀ msg, ecobee_update d.ecobee = FetchOutcome.err msg →
      (EcobeeData.update ecobee_update refresh_tokens now d entry).exc
        = some (PyExc.other msg)
      ∧ (EcobeeData.update ecobee_update refresh_tokens now d entry).refreshCalls
        = 0) := by
  unfold EcobeeData.update EcobeeData.updateBody
  rw [hgate]
  simp only [if_true]
  constructor
  · intro hexp
    simp only [hexp]
    cases hret : (EcobeeData.refresh refresh_tokens d entry).ret with
    | error m => simp [hret]
    | ok b => simp [hret]
  · intro msg hmsg
    simp [hmsg]

/-- C3 witness: fetch raises ExpiredTokenError; refresh runs once and no
ExpiredTokenError escapes. -/
theorem update_expired_refreshes_once_witness :
    throttleAllows d0.lastUpdate 0 = true
    ∧ ((EcobeeData.update fbExpired rbK2 0 d0 entry0).refreshCalls = 1
      ∧ (EcobeeData.update fbExpired rbK2 0 d0 entry0).exc
        ≠ some PyExc.expiredToken) :=
  ⟨rfl, (update_expired_refreshes_once fbExpired rbK2 0 d0 entry0 rfl).1 rfl⟩

/-- C4: if the mandatory refresh during setup returns false, setup returns
False without raising, and the process-wide slot hass.data[DOMAIN] is not
written — no coordinator is registered. -/
theorem setup_refresh_failure_aborts
    (ecobee_update : Ecobee → FetchOutcome)
    (refresh_tokens : Ecobee → RefreshOutcome)
    (now : Nat) (ECOBEE_PLATFORMS : List String) (hass : Hass) (entry : Entry)
    (e : Ecobee)
    (h : refresh_tokens (Ecobee.init entry.api_key entry.refresh_token)
      = RefreshOutcome.returns false e) :
    (async_setup_entry ecobee_update refresh_tokens now ECOBEE_PLATFORMS
      hass entry).ret = Except.ok false
    ∧ (async_setup_entry ecobee_update refresh_tokens now ECOBEE_PLATFORMS
      hass entry).hass.dataDomain = hass.dataDomain := by
  unfold async_setup_entry EcobeeData.refresh EcobeeData.init
  simp [h]

/-- C4 witness: a falsy external refresh makes setup return False and
leaves the domain slot unregistered. -/
theorem setup_refresh_failure_aborts_witness :
    rbFalse (Ecobee.init entry0.api_key entry0.refresh_token)
      = RefreshOutcome.returns false
        (Ecobee.init entry0.api_key entry0.refresh_token)
    ∧ ((async_setup_entry fbOk rbFalse 0 ["climate"] hass0 entry0).ret
        = Except.ok false
      ∧ (async_setup_entry fbOk rbFalse 0 ["climate"] hass0 entry0
        ).hass.dataDomain = hass0.dataDomain) :=
  ⟨rfl,
   setup_refresh_failure_aborts fbOk rbFalse 0 ["climate"] hass0 entry0
     (Ecobee.init entry0.api_key entry0.refresh_token) rfl⟩

/-- C5 counterexample: refresh succeeds and the update fetch completes with
an empty (non-None) device list, yet setup returns success and registers
the coordinator — the code only checks thermostats for None, so the
empty-collection case is not treated as a setup failure. -/
theorem setup_empty_device_list_succeeds_cex :
    (async_setup_entry fbEmptyList rbId 0 ["climate"] hass0 entry0).ret
      = Except.ok true
    ∧ (async_setup_entry fbEmptyList rbId 0 ["climate"] hass0 entry0
      ).hass.dataDomain
      = some { ecobee := { api_key := "K1", refresh_token := "R1",
                           thermostats := some [] },
               lastUpdate := some 0 } :=
  ⟨rfl, rfl⟩

/-- C5 (amended): after a successful refresh and a normally completing
update fetch during setup, setup returns failure exactly when the device
collection is absent (None); an empty collection does not cause failure —
setup returns success and registers the coordinator. -/
theorem setup_devices_absent_aborts
    (ecobee_update : Ecobee → FetchOutcome)
    (refresh_tokens : Ecobee → RefreshOutcome)
    (now : Nat) (ECOBEE_PLATFORMS : List String) (hass : Hass) (entry : Entry)
    (e1 e2 : Ecobee)
    (h1 : refresh_tokens (Ecobee.init entry.api_key entry.refresh_token)
      = RefreshOutcome.returns true e1)
    (h2 : ecobee_update e1 = FetchOutcome.ok e2) :
    (e2.thermostats = none →
      (async_setup_entry ecobee_update refresh_tokens now ECOBEE_PLATFORMS
        hass entry).ret = Except.ok false
      ∧ (async_setup_entry ecobee_update refresh_tokens now ECOBEE_PLATFORMS
        hass entry).hass.dataDomain = hass.dataDomain)
    ∧ (∀ l, e2.thermostats = some l →
      (async_setup_entry ecobee_update refresh_tokens now ECOBEE_PLATFORMS
        hass entry).ret = Except.ok true
      ∧ (async_setup_entry ecobee_update refresh_tokens now ECOBEE_PLATFORMS
        hass entry).hass.dataDomain ≠ none) := by
  unfold async_setup_entry EcobeeData.refresh EcobeeData.init
    EcobeeData.update EcobeeData.updateBody throttleAllows
  simp only [h1, h2]
  constructor
  · intro habs
    simp [habs]
  · intro l hl
    simp [hl]

/-- C5 witness: the fetch completes but leaves the device collection
absent (None); setup returns False and registers nothing. -/
theorem setup_devices_absent_aborts_witness :
    rbId (Ecobee.init entry0.api_key entry0.refresh_token)
      = RefreshOutcome.returns true
        (Ecobee.init entry0.api_key entry0.refresh_token)
    ∧ fbNone (Ecobee.init entry0.api_key entry0.refresh_token)
      = FetchOutcome.ok (Ecobee.init entry0.api_key entry0.refresh_token)
    ∧ (Ecobee.init entry0.api_key entry0.refresh_token).thermostats = none
    ∧ ((async_setup_entry fbNone rbId 0 ["climate"] hass0 entry0).ret
        = Except.ok false
      ∧ (async_setup_entry fbNone rbId 0 ["climate"] hass0 entry0
        ).hass.dataDomain = hass0.dataDomain) :=
  ⟨rfl, rfl, rfl,
   (setup_devices_absent_aborts fbNone rbId 0 ["climate"] hass0 entry0
     (Ecobee.init entry0.api_key entry0.refresh_token)
     (Ecobee.init entry0.api_key entry0.refresh_token) rfl rfl).1 rfl⟩

/-- C6 counterexample: no durable entry exists and the legacy configuration
block is present but empty; an empty dict is falsy in Python, so async_setup
schedules no import task — refuting "even when that block is empty". -/
theorem async_setup_empty_block_no_task_cex :
    hass0.entries = []
    ∧ (async_setup hass0 (some [])).1.tasks = 0
    ∧ (async_setup hass0 (some [])).2 = true :=
  ⟨rfl, rfl, rfl⟩

/-- C6 (amended): async_setup always returns True; it schedules the
one-shot import task exactly when no durable entry exists for the domain
and the legacy configuration block is present and non-empty; otherwise
(entries exist, or the block is absent or empty) no task is scheduled. -/
theorem async_setup_import_trigger
    (hass : Hass) (config : Option (List (String × String))) :
    (async_setup hass config).2 = true
    ∧ ((async_setup hass config).1.tasks = hass.tasks + 1
      ↔ (hass.entries = [] ∧ config.getD [] ≠ []))
    ∧ (¬(hass.entries = [] ∧ config.getD [] ≠ []) →
      (async_setup hass config).1.tasks = hass.tasks) := by
  unfold async_setup
  by_cases h1 : hass.entries = [] <;> by_cases h2 : config.getD [] = [] <;>
    simp [h1, h2, List.isEmpty_iff]

/-- C6 witness: a non-empty legacy block with no durable entry schedules
exactly one import task. -/
theorem async_setup_import_trigger_witness :
    (async_setup hass0 (some [("api_key", "ABC123")])).2 = true
    ∧ (async_setup hass0 (some [("api_key", "ABC123")])).1.tasks
      = hass0.tasks + 1 :=
  ⟨(async_setup_import_trigger hass0 (some [("api_key", "ABC123")])).1,
   ((async_setup_import_trigger hass0 (some [("api_key", "ABC123")])).2.1).mpr
     ⟨rfl, by decide⟩⟩

/-- C7: with a coordinator registered, unload reports success exactly when
every downstream forward-unload call reports success; a single failing
platform makes the overall result failure, and in every case a
forward-unload call is made for every declared platform — no
short-circuit. -/
theorem unload_conjunction_no_short_circuit
    (async_forward_entry_unload : Entry → String → Bool)
    (ECOBEE_PLATFORMS : List String) (hass : Hass) (config_entry : Entry)
    (d : EcobeeData) (h : hass.dataDomain = some d) :
    ((async_unload_entry async_forward_entry_unload ECOBEE_PLATFORMS hass
        config_entry).ret = Except.ok true
      ↔ ∀ p ∈ ECOBEE_PLATFORMS,
          async_forward_entry_unload config_entry p = true)
    ∧ (async_unload_entry async_forward_entry_unload ECOBEE_PLATFORMS hass
        config_entry).called = ECOBEE_PLATFORMS
    ∧ (∀ p ∈ ECOBEE_PLATFORMS,
        async_forward_entry_unload config_entry p = false →
        (async_unload_entry async_forward_entry_unload ECOBEE_PLATFORMS hass
          config_entry).ret = Except.ok false) := by
  unfold async_unload_entry
  rw [h]
  refine ⟨by simp, rfl, ?_⟩
  intro p hp hfalse
  simp only [Except.ok.injEq]
  rw [List.all_eq_false]
  exact ⟨async_forward_entry_unload config_entry p,
    List.mem_map_of_mem _ hp, by simp [hfalse]⟩

/-- C7 witness: two platforms, one failing forward-unload: overall result
is failure, both platforms were called. -/
theorem unload_conjunction_no_short_circuit_witness :
    ({ hass0 with dataDomain := some d0 } : Hass).dataDomain = some d0
    ∧ (async_unload_entry (fun _ p => p == "climate") ["climate", "sensor"]
        { hass0 with dataDomain := some d0 } entry0).called
      = ["climate", "sensor"]
    ∧ (async_unload_entry (fun _ p => p == "climate") ["climate", "sensor"]
        { hass0 with dataDomain := some d0 } entry0).ret
      = Except.ok false :=
  ⟨rfl,
   (unload_conjunction_no_short_circuit (fun _ p => p == "climate")
     ["climate", "sensor"] { hass0 with dataDomain := some d0 } entry0 d0
     rfl).2.1,
   (unload_conjunction_no_short_circuit (fun _ p => p == "climate")
     ["climate", "sensor"] { hass0 with dataDomain := some d0 } entry0 d0
     rfl).2.2 "sensor" (by decide) rfl⟩

/-- C10: when no coordinator is registered under the domain key, unload
raises the key-lookup error (dict pop with no default) instead of
returning a failure result, and no forward-unload call is made. -/
theorem unload_without_coordinator_raises
    (async_forward_entry_unload : Entry → String → Bool)
    (ECOBEE_PLATFORMS : List String) (hass : Hass) (config_entry : Entry)
    (h : hass.dataDomain = none) :
    (async_unload_entry async_forward_entry_unload ECOBEE_PLATFORMS hass
      config_entry).ret = Except.error "KeyError: ecobee"
    ∧ (async_unload_entry async_forward_entry_unload ECOBEE_PLATFORMS hass
      config_entry).called = [] := by
  unfold async_unload_entry
  rw [h]
  exact ⟨rfl, rfl⟩

/-- C10 witness: unloading with nothing registered raises the key error. -/
theorem unload_without_coordinator_raises_witness :
    hass0.dataDomain = none
    ∧ ((async_unload_entry (fun _ _ => true) ["climate"] hass0 entry0).ret
        = Except.error "KeyError: ecobee"
      ∧ (async_unload_entry (fun _ _ => true) ["climate"] hass0 entry0
        ).called = []) :=
  ⟨rfl,
   unload_without_coordinator_raises (fun _ _ => true) ["climate"] hass0
     entry0 rfl⟩
